import Mathlib

/-!
Verification development for the `akwa_transport` transportation booking
service (`mainapps/transportation`). The definitions below are a shallow
embedding of the seat-inventory-relevant parts of the source:

* `models.py`: the `Schedule` and `TransportationBooking` models, booking
  and schedule status choices, and `TransportationBooking.save` (which
  recomputes the monetary totals).
* `serializers.py`: `TransportationBookingSerializer.create` (wrapped in
  `transaction.atomic`) and `ScheduleSerializer` field writability.
* `views.py`: `TransportationBookingViewSet.perform_create`, `.confirm`
  and `.cancel`.

Monetary `Decimal` fields are modelled as `Rat` (the additions and the
multiplication by a passenger count performed by the source are exact, so
`Rat` matches `Decimal` on them).  `PositiveIntegerField` counters are
`Nat`.  Timestamps are opaque `Nat` instants.  Inert CRUD fields that no
modelled operation reads (passenger contact data, seat number strings,
payment references, special requests, express/luxury flags, route and
vehicle metadata) are omitted; every field an embedded operation reads or
writes is present.
-/

/-- Status choices of `Schedule.status` (`models.py`, lines 326-337). -/
inductive ScheduleStatus
  | scheduled
  | boarding
  | departed
  | arrived
  | cancelled
  | delayed
  deriving DecidableEq, Repr

/-- Text choices of `BookingStatus` (`models.py`, lines 354-361). -/
inductive BookingStatus
  | pending
  | confirmed
  | checked_in
  | boarded
  | completed
  | cancelled
  | no_show
  deriving DecidableEq, Repr

/-- The capacity-bearing part of `Vehicle` (`models.py`, lines 226-227).
The schedule's vehicle is the only place a total seat capacity is stored;
`Schedule` itself has no `total_capacity` field. -/
structure Vehicle where
  total_seats : Nat
  available_seats : Nat
  deriving DecidableEq, Repr

/-- The `Schedule` model's seat counters and status (`models.py`,
lines 298-351).  `available_seats` and `booked_seats` are
`PositiveIntegerField`s (non-negative integers); `booked_seats` has model
default `0`, `status` has model default `'scheduled'`. -/
structure Schedule where
  available_seats : Nat
  booked_seats : Nat
  status : ScheduleStatus
  deriving DecidableEq, Repr

/-- The `TransportationBooking` model (`models.py`, lines 364-454):
the fields read or written by `save`, `create`, `confirm` and `cancel`. -/
structure TransportationBooking where
  booking_reference : String
  number_of_passengers : Nat
  unit_price : Rat
  subtotal : Rat
  taxes : Rat
  fees : Rat
  total_amount : Rat
  status : BookingStatus
  confirmation_date : Option Nat
  cancellation_date : Option Nat
  deriving DecidableEq, Repr

/-- Model of `TransportationBooking.save` (`models.py`, lines 437-445): if the
booking reference is empty a generated one is filled in
(`generate_booking_reference` draws random characters, so the generated
reference is passed in as the argument `freshRef`), then
`subtotal = unit_price * number_of_passengers` and
`total_amount = subtotal + taxes + fees` are recomputed, and the row is
written. -/
def TransportationBooking.save (freshRef : String) (b : TransportationBooking) :
    TransportationBooking :=
  let b := if b.booking_reference = "" then { b with booking_reference := freshRef } else b
  let subtotal := b.unit_price * (b.number_of_passengers : Rat)
  { b with subtotal := subtotal, total_amount := subtotal + b.taxes + b.fees }

/-- The writable fields of `TransportationBookingSerializer` that the
modelled operations read (`serializers.py`, lines 118-131): `status` is
listed in `fields` and not in `read_only_fields`, so it is writable and
defaults to the model default `pending` when absent; `number_of_passengers`
defaults to `1`, `taxes` and `fees` default to `0`. -/
structure BookingInput where
  number_of_passengers : Option Nat
  unit_price : Rat
  taxes : Option Rat
  fees : Option Rat
  status : Option BookingStatus
  deriving DecidableEq, Repr

/-- The database state the booking endpoints touch: the one schedule the
bookings reference (with its vehicle) and the booking rows. -/
structure Sys where
  vehicle : Vehicle
  schedule : Schedule
  bookings : List TransportationBooking
  deriving DecidableEq, Repr

/-- Model of `TransportationBookingSerializer.create` (`serializers.py`,
lines 133-142) as invoked through
`TransportationBookingViewSet.perform_create` (`views.py`, lines 254-261),
the whole call wrapped in `transaction.atomic`: a
`TransportationBooking` row is built from the validated data with the
model defaults, `save` runs (computing reference and totals), and the row
is inserted.  Passenger detail rows are also created; they carry no
seat-inventory state and are omitted.  No statement of `create` or
`perform_create` reads or writes the `Schedule` row: the schedule
component of the state passes through untouched, there is no capacity or
schedule-status check, and no error path exists. -/
def TransportationBookingSerializer.create (freshRef : String) (inp : BookingInput)
    (s : Sys) : TransportationBooking × Sys :=
  let b : TransportationBooking :=
    { booking_reference := ""
      number_of_passengers := inp.number_of_passengers.getD 1
      unit_price := inp.unit_price
      subtotal := 0
      taxes := inp.taxes.getD 0
      fees := inp.fees.getD 0
      total_amount := 0
      status := inp.status.getD .pending
      confirmation_date := none
      cancellation_date := none }
  let b := TransportationBooking.save freshRef b
  (b, { s with bookings := s.bookings ++ [b] })

/-- Model of `TransportationBookingViewSet.confirm` (`views.py`, lines 263-278):
only `pending` bookings can be confirmed; on success the booking becomes
`confirmed` with `confirmation_date` stamped and is saved.  The booking is
addressed by its position `i` in the booking table.  The schedule row is
never touched. -/
def TransportationBookingViewSet.confirm (now : Nat) (freshRef : String) (i : Nat)
    (s : Sys) : Except String Sys :=
  match s.bookings[i]? with
  | none => .error "Not found"
  | some booking =>
    if booking.status ≠ .pending then
      .error "Only pending bookings can be confirmed"
    else
      let booking := TransportationBooking.save freshRef
        { booking with status := .confirmed, confirmation_date := some now }
      .ok { s with bookings := s.bookings.set i booking }

/-- Model of `TransportationBookingViewSet.cancel` (`views.py`, lines 280-295):
bookings in `completed` or `cancelled` state are rejected with an HTTP 400
error; any other booking becomes `cancelled` with `cancellation_date`
stamped and is saved.  No statement of `cancel` reads or writes the
`Schedule` row. -/
def TransportationBookingViewSet.cancel (now : Nat) (freshRef : String) (i : Nat)
    (s : Sys) : Except String Sys :=
  match s.bookings[i]? with
  | none => .error "Not found"
  | some booking =>
    if booking.status = .completed ∨ booking.status = .cancelled then
      .error "Cannot cancel completed or already cancelled booking"
    else
      let booking := TransportationBooking.save freshRef
        { booking with status := .cancelled, cancellation_date := some now }
      .ok { s with bookings := s.bookings.set i booking }

/-- The writable fields of `ScheduleSerializer` (`serializers.py`,
lines 41-53): `available_seats`, `booked_seats` and `status` are all
listed in `fields` with no `read_only_fields`, so a client creating a
schedule may supply any values for them; `booked_seats` defaults to the
model default `0` and `status` to `'scheduled'` when absent. -/
structure ScheduleInput where
  available_seats : Nat
  booked_seats : Option Nat
  status : Option ScheduleStatus
  deriving DecidableEq, Repr

/-- Model of schedule creation through `ScheduleSerializer` (`serializers.py`, lines 41-53, and
`ScheduleViewSet.perform_create`, `views.py`, lines 204-210): the schedule
row is stored exactly as supplied, with model defaults for absent fields.
No validation relates the counters to each other or to the vehicle's
`total_seats`. -/
def ScheduleSerializer.create (inp : ScheduleInput) : Schedule :=
  { available_seats := inp.available_seats
    booked_seats := inp.booked_seats.getD 0
    status := inp.status.getD .scheduled }

/-- One public booking operation, as dispatched by
`TransportationBookingViewSet`. -/
inductive BookingOp
  | create (freshRef : String) (inp : BookingInput)
  | confirm (now : Nat) (freshRef : String) (i : Nat)
  | cancel (now : Nat) (freshRef : String) (i : Nat)
  deriving DecidableEq, Repr

/-- Apply one operation to the database state; an endpoint that returns
an error response leaves the state unchanged (the source mutates nothing
before returning the 400 response). -/
def applyOp (s : Sys) : BookingOp → Sys
  | .create freshRef inp => (TransportationBookingSerializer.create freshRef inp s).2
  | .confirm now freshRef i =>
    match TransportationBookingViewSet.confirm now freshRef i s with
    | .ok s' => s'
    | .error _ => s
  | .cancel now freshRef i =>
    match TransportationBookingViewSet.cancel now freshRef i s with
    | .ok s' => s'
    | .error _ => s

/-- Run a sequence of booking operations from a starting state. -/
def runOps (s : Sys) (ops : List BookingOp) : Sys :=
  ops.foldl applyOp s

/-- No booking operation touches the schedule row (or the vehicle row). -/
theorem applyOp_schedule (s : Sys) (op : BookingOp) :
    (applyOp s op).schedule = s.schedule ∧ (applyOp s op).vehicle = s.vehicle := by
  cases op with
  | create freshRef inp =>
    simp [applyOp, TransportationBookingSerializer.create]
  | confirm now freshRef i =>
    simp only [applyOp, TransportationBookingViewSet.confirm]
    cases hb : s.bookings[i]? with
    | none => simp
    | some booking =>
      by_cases hst : booking.status = BookingStatus.pending <;> simp [hst]
  | cancel now freshRef i =>
    simp only [applyOp, TransportationBookingViewSet.cancel]
    cases hb : s.bookings[i]? with
    | none => simp
    | some booking =>
      by_cases hst : booking.status = BookingStatus.completed ∨
          booking.status = BookingStatus.cancelled <;> simp [hst]

/-- Running any sequence of booking operations leaves the schedule row
untouched. -/
theorem runOps_schedule (ops : List BookingOp) (s : Sys) :
    (runOps s ops).schedule = s.schedule := by
  induction ops generalizing s with
  | nil => rfl
  | cons op ops ih =>
    rw [runOps, List.foldl_cons]
    exact (ih (applyOp s op)).trans (applyOp_schedule s op).1

/-- Saving never changes a booking's status (`save` only fills the
reference and recomputes the monetary totals). -/
@[simp] theorem TransportationBooking.save_status (ref : String)
    (b : TransportationBooking) :
    (TransportationBooking.save ref b).status = b.status := by
  simp only [TransportationBooking.save]
  split <;> rfl

/-- Saving never changes a booking's cancellation date. -/
@[simp] theorem TransportationBooking.save_cancellation_date (ref : String)
    (b : TransportationBooking) :
    (TransportationBooking.save ref b).cancellation_date = b.cancellation_date := by
  simp only [TransportationBooking.save]
  split <;> rfl

/-- Saving never changes a booking's passenger count. -/
@[simp] theorem TransportationBooking.save_number_of_passengers (ref : String)
    (b : TransportationBooking) :
    (TransportationBooking.save ref b).number_of_passengers = b.number_of_passengers := by
  simp only [TransportationBooking.save]
  split <;> rfl

/-- A request body booking two passengers at unit price 10, with the
optional serializer fields absent. -/
def inputTwoPassengers : BookingInput :=
  { number_of_passengers := some 2
    unit_price := 10
    taxes := none
    fees := none
    status := none }

/-- A request body booking one passenger at unit price 10, with the
optional serializer fields absent. -/
def inputOnePassenger : BookingInput :=
  { number_of_passengers := some 1
    unit_price := 10
    taxes := none
    fees := none
    status := none }

/-- A fresh bookable schedule with 50 of 50 seats available and no
bookings. -/
def sysFresh50 : Sys :=
  { vehicle := { total_seats := 50, available_seats := 50 }
    schedule := { available_seats := 50, booked_seats := 0, status := .scheduled }
    bookings := [] }

/-- C1.  Booking creation is claimed to reserve seats: decrement
`available_seats` and increment `booked_seats` by the passenger count,
atomically with the insert.  Evaluating the embedded
`TransportationBookingSerializer.create` at a fresh 50-seat schedule and a
2-passenger request: the booking is inserted in `pending` status, but the
schedule's counters are untouched (50 available, 0 booked) — no
reservation of any kind is performed. -/
theorem create_performs_no_reservation :
    ((TransportationBookingSerializer.create "TRP-1" inputTwoPassengers sysFresh50).1.status
        = BookingStatus.pending)
    ∧ ((TransportationBookingSerializer.create "TRP-1" inputTwoPassengers sysFresh50).2.bookings.length
        = 1)
    ∧ ((TransportationBookingSerializer.create "TRP-1" inputTwoPassengers sysFresh50).2.schedule.available_seats
        = 50)
    ∧ ((TransportationBookingSerializer.create "TRP-1" inputTwoPassengers sysFresh50).2.schedule.booked_seats
        = 0) := by
  decide

/-- A pending 3-passenger booking. -/
def pendingBooking3 : TransportationBooking :=
  { booking_reference := "TRP-2"
    number_of_passengers := 3
    unit_price := 10
    subtotal := 30
    taxes := 0
    fees := 0
    total_amount := 30
    status := .pending
    confirmation_date := none
    cancellation_date := none }

/-- A schedule showing 47 available / 3 booked seats with one pending
3-passenger booking. -/
def sysOnePending : Sys :=
  { vehicle := { total_seats := 50, available_seats := 47 }
    schedule := { available_seats := 47, booked_seats := 3, status := .scheduled }
    bookings := [pendingBooking3] }

/-- C2.  Cancelling a pending booking is claimed to release its seats:
increment `available_seats` and decrement `booked_seats` by the passenger
count.  Evaluating the embedded `TransportationBookingViewSet.cancel` on a
pending 3-passenger booking: the cancel succeeds and the booking becomes
`cancelled`, but the schedule still shows 47 available / 3 booked — no
release is performed. -/
theorem cancel_performs_no_release :
    ((applyOp sysOnePending (.cancel 5 "" 0)).bookings.map TransportationBooking.status
        = [BookingStatus.cancelled])
    ∧ ((applyOp sysOnePending (.cancel 5 "" 0)).schedule.available_seats = 47)
    ∧ ((applyOp sysOnePending (.cancel 5 "" 0)).schedule.booked_seats = 3) := by
  decide

/-- A vehicle with 3 total seats. -/
def vehicle3 : Vehicle := { total_seats := 3, available_seats := 3 }

/-- A schedule created through the public serializer with
`available_seats = 5` and `booked_seats = 7` supplied by the client. -/
def freshBadSchedule : Schedule :=
  ScheduleSerializer.create
    { available_seats := 5, booked_seats := some 7, status := none }

/-- C3.  The invariant `available + booked == total_capacity` is claimed
for every reachable state.  The public schedule serializer stores whatever
counter values the client supplies, so a fresh schedule can violate the
invariant from birth (5 + 7 against a 3-seat vehicle), and since no
booking operation ever touches the counters the violation persists across
any further operations (here: a booking creation). -/
theorem fresh_schedule_invariant_not_established :
    (freshBadSchedule.available_seats + freshBadSchedule.booked_seats
        ≠ vehicle3.total_seats)
    ∧ ((runOps
          { vehicle := vehicle3, schedule := freshBadSchedule, bookings := [] }
          [.create "TRP-3" inputTwoPassengers]).schedule.available_seats
        + (runOps
          { vehicle := vehicle3, schedule := freshBadSchedule, bookings := [] }
          [.create "TRP-3" inputTwoPassengers]).schedule.booked_seats
        ≠ vehicle3.total_seats) := by
  decide

/-- A sold-out schedule: 0 available, 50 booked. -/
def sysSoldOut : Sys :=
  { vehicle := { total_seats := 50, available_seats := 0 }
    schedule := { available_seats := 0, booked_seats := 50, status := .scheduled }
    bookings := [] }

/-- C4.  A reservation exceeding the available capacity is claimed to fail
with `InsufficientCapacity` leaving the counters unchanged.  The embedded
`TransportationBookingSerializer.create` has no failure outcome at all (its
result type carries no error case, mirroring the absence of any capacity
check in the source): a 1-passenger booking against a schedule with 0
available seats is inserted successfully in `pending` status. -/
theorem reserve_beyond_capacity_succeeds :
    ((TransportationBookingSerializer.create "TRP-4" inputOnePassenger sysSoldOut).2.bookings.length
        = 1)
    ∧ ((TransportationBookingSerializer.create "TRP-4" inputOnePassenger sysSoldOut).1.status
        = BookingStatus.pending)
    ∧ ((TransportationBookingSerializer.create "TRP-4" inputOnePassenger sysSoldOut).2.schedule.available_seats
        = 0) := by
  decide

/-- A cancelled schedule with 10 seats still marked available. -/
def sysCancelledSchedule : Sys :=
  { vehicle := { total_seats := 10, available_seats := 10 }
    schedule := { available_seats := 10, booked_seats := 0, status := .cancelled }
    bookings := [] }

/-- C5.  A reservation against a schedule whose status is not `scheduled`
is claimed to fail with `ScheduleNotBookable`.  The embedded
`TransportationBookingSerializer.create` never inspects the schedule's
status (the source has no such check): a 1-passenger booking against a
`cancelled` schedule is inserted successfully in `pending` status. -/
theorem reserve_on_cancelled_schedule_succeeds :
    ((TransportationBookingSerializer.create "TRP-5" inputOnePassenger sysCancelledSchedule).2.bookings.length
        = 1)
    ∧ ((TransportationBookingSerializer.create "TRP-5" inputOnePassenger sysCancelledSchedule).1.status
        = BookingStatus.pending) := by
  decide

/-- A schedule with capacity 1 and 1 seat available. -/
def sysCapacityOne : Sys :=
  { vehicle := { total_seats := 1, available_seats := 1 }
    schedule := { available_seats := 1, booked_seats := 0, status := .scheduled }
    bookings := [] }

/-- C8.  With K = 2 unit reservations against capacity C = 1, exactly one
is claimed to succeed and one to fail with `InsufficientCapacity`, ending
with 0 available seats.  Each embedded creation is a single atomic
transaction, so any interleaving of the two requests is one of the two
sequential orders, which here coincide: both creations succeed (the
operation cannot fail), 2 bookings exist, and `available_seats` is still 1
— the schedule is overcommitted and the predicted failure never occurs. -/
theorem concurrent_unit_reserves_all_succeed :
    ((runOps sysCapacityOne
        [.create "TRP-8A" inputOnePassenger, .create "TRP-8B" inputOnePassenger]).bookings.length
      = 2)
    ∧ ((runOps sysCapacityOne
        [.create "TRP-8A" inputOnePassenger, .create "TRP-8B" inputOnePassenger]).schedule.available_seats
      = 1) := by
  decide

/-- A successful cancel leaves the schedule row unchanged. -/
theorem cancel_ok_schedule (now : Nat) (ref : String) (i : Nat) (s s' : Sys)
    (h : TransportationBookingViewSet.cancel now ref i s = .ok s') :
    s'.schedule = s.schedule := by
  have hx := (applyOp_schedule s (.cancel now ref i)).1
  simp only [applyOp, h] at hx
  exact hx

/-- C6.  Cancelling twice is idempotent on seat inventory: after a
successful cancel, the second cancel of the same booking is rejected with
the 400 error and leaves the entire state (in particular the schedule's
counters) unchanged — the release is never applied a second time.  (In
fact `cancel` never modifies the counters at all, see C2, so they change
at most once vacuously.) -/
theorem second_cancel_rejected (s s1 : Sys) (i now1 now2 : Nat) (ref1 ref2 : String)
    (h : TransportationBookingViewSet.cancel now1 ref1 i s = .ok s1) :
    TransportationBookingViewSet.cancel now2 ref2 i s1
      = .error "Cannot cancel completed or already cancelled booking"
    ∧ applyOp s1 (.cancel now2 ref2 i) = s1 := by
  have key : TransportationBookingViewSet.cancel now2 ref2 i s1
      = .error "Cannot cancel completed or already cancelled booking" := by
    cases hb : s.bookings[i]? with
    | none =>
      simp only [TransportationBookingViewSet.cancel, hb] at h
      exact absurd h (by simp)
    | some booking =>
      simp only [TransportationBookingViewSet.cancel, hb] at h
      by_cases hst : booking.status = .completed ∨ booking.status = .cancelled
      · rw [if_pos hst] at h; exact absurd h (by simp)
      · rw [if_neg hst] at h
        have hlen : i < s.bookings.length :=
          (List.getElem?_eq_some_iff.mp hb).1
        have hs1 := Except.ok.inj h
        subst hs1
        simp only [TransportationBookingViewSet.cancel,
          List.getElem?_set_self hlen]
        simp
  refine ⟨key, ?_⟩
  simp only [applyOp, key]

/-- The state of `sysOnePending` after its booking has been cancelled at
instant 5. -/
def sysOneCancelled : Sys := applyOp sysOnePending (.cancel 5 "" 0)

/-- Witness for C6 at a concrete state: the already-cancelled booking of
`sysOneCancelled` cannot be cancelled again. -/
theorem second_cancel_rejected_witness :
    TransportationBookingViewSet.cancel 6 "" 0 sysOneCancelled
      = .error "Cannot cancel completed or already cancelled booking"
    ∧ applyOp sysOneCancelled (.cancel 6 "" 0) = sysOneCancelled :=
  second_cancel_rejected sysOnePending sysOneCancelled 0 5 6 "" "" rfl

/-- C7.  Round-trip: creating a booking (for any passenger count within
the available capacity, with the request not overriding the default
`pending` status) and then immediately cancelling it returns the
schedule's `available_seats` and `booked_seats` to exactly their
pre-reservation values.  (Both operations leave the counters untouched,
so the round-trip equality holds.) -/
theorem create_then_cancel_restores_counters (s : Sys) (inp : BookingInput)
    (ref ref2 : String) (now : Nat)
    (_hcap : inp.number_of_passengers.getD 1 ≤ s.schedule.available_seats)
    (hstat : inp.status = none) :
    ∃ s2 : Sys,
      TransportationBookingViewSet.cancel now ref2 s.bookings.length
          (TransportationBookingSerializer.create ref inp s).2 = .ok s2
      ∧ s2.schedule.available_seats = s.schedule.available_seats
      ∧ s2.schedule.booked_seats = s.schedule.booked_seats := by
  simp only [TransportationBookingSerializer.create,
    TransportationBookingViewSet.cancel, List.getElem?_concat_length]
  rw [if_neg (by simp [hstat])]
  exact ⟨_, rfl, rfl, rfl⟩

/-- Witness for C7: booking 2 of the 50 available seats of `sysFresh50`
and cancelling immediately leaves 50 available / 0 booked. -/
theorem create_then_cancel_restores_counters_witness :
    ∃ s2 : Sys,
      TransportationBookingViewSet.cancel 9 "" 0
          (TransportationBookingSerializer.create "TRP-7" inputTwoPassengers sysFresh50).2
        = .ok s2
      ∧ s2.schedule.available_seats = sysFresh50.schedule.available_seats
      ∧ s2.schedule.booked_seats = sysFresh50.schedule.booked_seats :=
  create_then_cancel_restores_counters sysFresh50 inputTwoPassengers "TRP-7" "" 9
    (by decide) rfl

/-- C9.  Every save recomputes the monetary totals from the booking's own
fields: `subtotal = unit_price * number_of_passengers` and
`total_amount = subtotal + taxes + fees` (every mutation path of the
source — creation, confirmation, cancellation — ends in `save`). -/
theorem save_recomputes_totals (ref : String) (b : TransportationBooking) :
    (TransportationBooking.save ref b).subtotal
        = b.unit_price * (b.number_of_passengers : Rat)
    ∧ (TransportationBooking.save ref b).total_amount
        = (TransportationBooking.save ref b).subtotal + b.taxes + b.fees := by
  simp only [TransportationBooking.save]
  split <;> simp

/-- C10.  The cancel endpoint rejects exactly the bookings whose status is
`completed` or `cancelled`, leaving the whole state unchanged; every other
booking (including `checked_in`, `boarded` and `no_show`) is cancelled
successfully, its status set to `cancelled` and its `cancellation_date`
stamped, with the schedule row untouched. -/
theorem cancel_rejects_iff_completed_or_cancelled (s : Sys) (i now : Nat)
    (ref : String) (b : TransportationBooking) (hb : s.bookings[i]? = some b) :
    (TransportationBookingViewSet.cancel now ref i s
        = .error "Cannot cancel completed or already cancelled booking"
      ↔ (b.status = .completed ∨ b.status = .cancelled))
    ∧ ((b.status = .completed ∨ b.status = .cancelled) →
        applyOp s (.cancel now ref i) = s)
    ∧ (¬(b.status = .completed ∨ b.status = .cancelled) →
        ∃ (s' : Sys) (bc : TransportationBooking),
          TransportationBookingViewSet.cancel now ref i s = .ok s'
          ∧ s'.schedule = s.schedule
          ∧ s'.bookings[i]? = some bc
          ∧ bc.status = .cancelled
          ∧ bc.cancellation_date = some now) := by
  have hlen : i < s.bookings.length := (List.getElem?_eq_some_iff.mp hb).1
  by_cases hst : b.status = .completed ∨ b.status = .cancelled
  · refine ⟨?_, fun _ => ?_, fun hc => absurd hst hc⟩
    · simp only [TransportationBookingViewSet.cancel, hb, if_pos hst]
      simp [hst]
    · have key : TransportationBookingViewSet.cancel now ref i s
          = .error "Cannot cancel completed or already cancelled booking" := by
        simp only [TransportationBookingViewSet.cancel, hb, if_pos hst]
      simp only [applyOp, key]
  · refine ⟨?_, fun hc => absurd hc hst, fun _ => ?_⟩
    · simp only [TransportationBookingViewSet.cancel, hb, if_neg hst]
      simp [hst]
    · refine ⟨{ s with bookings := s.bookings.set i (TransportationBooking.save ref
          { b with status := .cancelled, cancellation_date := some now }) },
        TransportationBooking.save ref
          { b with status := .cancelled, cancellation_date := some now },
        ?_, rfl, List.getElem?_set_self hlen, by simp, by simp⟩
      simp only [TransportationBookingViewSet.cancel, hb, if_neg hst]

/-- Witness for C10 at a concrete state: the pending booking of
`sysOnePending` is cancellable, and the rejection condition is false for
it. -/
theorem cancel_rejects_iff_witness :
    (TransportationBookingViewSet.cancel 7 "" 0 sysOnePending
        = .error "Cannot cancel completed or already cancelled booking"
      ↔ (pendingBooking3.status = .completed ∨ pendingBooking3.status = .cancelled))
    ∧ ((pendingBooking3.status = .completed ∨ pendingBooking3.status = .cancelled) →
        applyOp sysOnePending (.cancel 7 "" 0) = sysOnePending)
    ∧ (¬(pendingBooking3.status = .completed ∨ pendingBooking3.status = .cancelled) →
        ∃ (s' : Sys) (bc : TransportationBooking),
          TransportationBookingViewSet.cancel 7 "" 0 sysOnePending = .ok s'
          ∧ s'.schedule = sysOnePending.schedule
          ∧ s'.bookings[0]? = some bc
          ∧ bc.status = .cancelled
          ∧ bc.cancellation_date = some 7) :=
  cancel_rejects_iff_completed_or_cancelled sysOnePending 0 7 "" pendingBooking3 rfl
